import Mathlib

/-!
Shallow embedding of the PowerShops ROI calculation engine
(the `calculations` memo and the value formatters of the main component),
with the numeric model taken over `ℚ`: the source's arithmetic is only
`+`, `-`, `*`, `/` on slider-produced integers, so every intermediate
value is an exact rational.
-/

namespace PowerShops

/-- The six-field input produced by the sliders (`parseInt`, so integers). -/
structure Assumptions where
  employees : ℕ
  salary : ℕ
  trainingHours : ℕ
  turnover : ℕ
  replaceCost : ℕ
  term : ℕ
deriving DecidableEq

/-- `const productivityBoost = 0.05`. -/
def productivityBoost : ℚ := 5 / 100

/-- `const turnoverReduction = 0.20`. -/
def turnoverReduction : ℚ := 20 / 100

/-- `const trainingHoursSavedPerEmployee = 10`. -/
def trainingHoursSavedPerEmployee : ℚ := 10

/-- `const workingHoursPerYear = 2080`. -/
def workingHoursPerYear : ℚ := 2080

/-- `const costPerYearPerEmployee = [500, 475, 450, 425, 400]`. -/
def costPerYearPerEmployee : List ℚ := [500, 475, 450, 425, 400]

/-- The per-employee rate used for year index `i` (0-based):
`costPerYearPerEmployee[i] || costPerYearPerEmployee[costPerYearPerEmployee.length - 1]`.
Every tier value is nonzero, so the `||` fallback fires exactly on the
out-of-range (`undefined`) case, i.e. it is an index-clamped lookup. -/
def tierRate (i : ℕ) : ℚ :=
  costPerYearPerEmployee.getD i
    (costPerYearPerEmployee.getD (costPerYearPerEmployee.length - 1) 0)

/-- Sum of the first `n` tier rates (per-employee investment over `n` years). -/
def sumTier (n : ℕ) : ℚ := (Finset.range n).sum tierRate

/-- `totalInvestment`: the loop `for (i = 0; i < term; i++) totalInvestment += employees * rate`. -/
def totalInvestment (a : Assumptions) : ℚ :=
  (Finset.range a.term).sum fun i => (a.employees : ℚ) * tierRate i

/-- `averageAnnualCost = term > 0 ? totalInvestment / term : 0`. -/
def averageAnnualCost (a : Assumptions) : ℚ :=
  if 0 < a.term then totalInvestment a / a.term else 0

/-- `hourlyRate = salary / workingHoursPerYear`. -/
def hourlyRate (a : Assumptions) : ℚ := (a.salary : ℚ) / workingHoursPerYear

/-- `annualProductivityGains = employees * salary * productivityBoost`. -/
def annualProductivityGains (a : Assumptions) : ℚ :=
  (a.employees : ℚ) * (a.salary : ℚ) * productivityBoost

/-- `annualTurnoverSavings = employees * (turnover / 100) * turnoverReduction * replaceCost`. -/
def annualTurnoverSavings (a : Assumptions) : ℚ :=
  (a.employees : ℚ) * ((a.turnover : ℚ) / 100) * turnoverReduction * (a.replaceCost : ℚ)

/-- `annualTrainingSavings = employees * trainingHoursSavedPerEmployee * hourlyRate`. -/
def annualTrainingSavings (a : Assumptions) : ℚ :=
  (a.employees : ℚ) * trainingHoursSavedPerEmployee * hourlyRate a

/-- `annualBenefit = annualProductivityGains + annualTurnoverSavings + annualTrainingSavings`. -/
def annualBenefit (a : Assumptions) : ℚ :=
  annualProductivityGains a + annualTurnoverSavings a + annualTrainingSavings a

/-- `productivityGains = annualProductivityGains * term`. -/
def productivityGains (a : Assumptions) : ℚ := annualProductivityGains a * (a.term : ℚ)

/-- `turnoverReductionSavings = annualTurnoverSavings * term`. -/
def turnoverReductionSavings (a : Assumptions) : ℚ := annualTurnoverSavings a * (a.term : ℚ)

/-- `trainingTimeSavings = annualTrainingSavings * term`. -/
def trainingTimeSavings (a : Assumptions) : ℚ := annualTrainingSavings a * (a.term : ℚ)

/-- `totalBenefit = productivityGains + turnoverReductionSavings + trainingTimeSavings`. -/
def totalBenefit (a : Assumptions) : ℚ :=
  productivityGains a + turnoverReductionSavings a + trainingTimeSavings a

/-- `netBenefit = totalBenefit - totalInvestment`. -/
def netBenefit (a : Assumptions) : ℚ := totalBenefit a - totalInvestment a

/-- `totalRoi = totalInvestment > 0 ? (netBenefit / totalInvestment) * 100 : 0`. -/
def totalRoi (a : Assumptions) : ℚ :=
  if 0 < totalInvestment a then netBenefit a / totalInvestment a * 100 else 0

/-- `monthsToBreakEven = (annualBenefit > 0 && annualBenefit > averageAnnualCost)
? (totalInvestment / (annualBenefit - averageAnnualCost)) * 12 : 0`. -/
def monthsToBreakEven (a : Assumptions) : ℚ :=
  if 0 < annualBenefit a ∧ averageAnnualCost a < annualBenefit a then
    totalInvestment a / (annualBenefit a - averageAnnualCost a) * 12
  else 0

/-- Closed form of the accumulator `cumulativeCost` after processing year `y`:
the loop adds `employees * tierRate (year - 1)` for each year `1..y`. -/
def cumulativeCostAt (a : Assumptions) (y : ℕ) : ℚ :=
  (Finset.range y).sum fun i => (a.employees : ℚ) * tierRate i

/-- One entry pushed onto `cashFlowData`. -/
structure CashFlowEntry where
  year : String
  cumulativeBenefit : ℚ
  cumulativeCost : ℚ
  netCashFlow : ℚ
deriving DecidableEq

/-- The `cashFlowData` loop: one entry per year `0..term` inclusive;
`cumulativeBenefit = annualBenefit * year`, `cumulativeCost` accumulates the
tiered per-year investment (nothing is added for year 0). -/
def cashFlowData (a : Assumptions) : List CashFlowEntry :=
  (List.range (a.term + 1)).map fun (y : ℕ) =>
    { year := "Year " ++ toString y
      cumulativeBenefit := annualBenefit a * (y : ℚ)
      cumulativeCost := cumulativeCostAt a y
      netCashFlow := annualBenefit a * (y : ℚ) - cumulativeCostAt a y }

/-- The record returned from the `useMemo`. -/
structure DerivedMetrics where
  powerShopsAnnualCost : ℚ
  totalInvestment : ℚ
  productivityGains : ℚ
  turnoverReductionSavings : ℚ
  trainingTimeSavings : ℚ
  totalBenefit : ℚ
  netBenefit : ℚ
  totalRoi : ℚ
  monthsToBreakEven : ℚ
  cashFlowData : List CashFlowEntry
deriving DecidableEq

/-- The whole `calculations` memo.  Its dependency array is
`[employees, salary, turnover, replaceCost, term]`; `trainingHours` is
never read inside the body. -/
def calculations (a : Assumptions) : DerivedMetrics :=
  { powerShopsAnnualCost := averageAnnualCost a
    totalInvestment := totalInvestment a
    productivityGains := productivityGains a
    turnoverReductionSavings := turnoverReductionSavings a
    trainingTimeSavings := trainingTimeSavings a
    totalBenefit := totalBenefit a
    netBenefit := netBenefit a
    totalRoi := totalRoi a
    monthsToBreakEven := monthsToBreakEven a
    cashFlowData := cashFlowData a }

/-! ### Formatters -/

/-- Insert a comma after every complete group of three characters, the input
being the decimal digits least-significant first. -/
def commaRev : List Char → List Char
  | [] => []
  | [a] => [a]
  | [a, b] => [a, b]
  | [a, b, c] => [a, b, c]
  | a :: b :: c :: rest => a :: b :: c :: ',' :: commaRev rest

/-- Locale-grouped decimal rendering of a natural number (en-US grouping). -/
def formatNatGrouped (n : ℕ) : String :=
  String.mk ((commaRev ((Nat.toDigits 10 n).reverse)).reverse)

/-- `Intl.NumberFormat` default rounding is half-away-from-zero, i.e.
half-up on the absolute value, sign reattached. -/
def roundHalfExpand (v : ℚ) : ℤ :=
  if v < 0 then -round (-v) else round v

/-- `formatCurrency`: USD, en-US grouping, zero fraction digits. -/
def formatCurrency (v : ℚ) : String :=
  if v < 0 then "-$" ++ formatNatGrouped (roundHalfExpand v).natAbs
  else "$" ++ formatNatGrouped (roundHalfExpand v).natAbs

/-- JS `toFixed(1)`: nearest multiple of 1/10, ties to the larger candidate,
which is exactly half-up rounding of `10 * v`. -/
def toFixed1 (v : ℚ) : String :=
  (if round (v * 10) < 0 then "-" else "")
    ++ toString ((round (v * 10)).natAbs / 10) ++ "."
    ++ toString ((round (v * 10)).natAbs % 10)

/-- `formatCurrencyK`: `Math.abs(value) >= 1000000` gives `toFixed(1) + "M"`,
`Math.abs(value) >= 1000` gives `Math.round(value/1000) + "K"` (JS
`Math.round` is half-up, Mathlib `round`), otherwise `formatCurrency`. -/
def formatCurrencyK (v : ℚ) : String :=
  if 1000000 ≤ |v| then toFixed1 (v / 1000000) ++ "M"
  else if 1000 ≤ |v| then toString (round (v / 1000)) ++ "K"
  else formatCurrency v

/-- `formatMonths`: `value > 0 ? value.toFixed(1) + " mo" : "N/A"`. -/
def formatMonths (v : ℚ) : String :=
  if 0 < v then toFixed1 v ++ " mo" else "N/A"

/-- `formatPercent`: `Math.round(value) + "%"`. -/
def formatPercent (v : ℚ) : String := toString (round v) ++ "%"

/-! ### Basic facts used by several claims -/

/-- The input used by the spec's concrete scenario 1 (`trainingHours` is
irrelevant to the engine; the scenario leaves it at its slider minimum 0). -/
def scenario1 : Assumptions :=
  { employees := 10, salary := 20000, trainingHours := 0
    turnover := 0, replaceCost := 5000, term := 1 }

theorem tierRate_of_ge (i : ℕ) (h : 5 ≤ i) : tierRate i = 400 := by
  have hlen : costPerYearPerEmployee.length ≤ i := by
    simp only [costPerYearPerEmployee, List.length_cons, List.length_nil]
    omega
  rw [tierRate, List.getD_eq_default _ _ hlen]
  rfl

theorem tierRate_le (i : ℕ) : tierRate i ≤ 500 := by
  rcases i with _ | _ | _ | _ | _ | n
  · decide
  · decide
  · decide
  · decide
  · decide
  · rw [tierRate_of_ge (n + 5) (by omega)]
    norm_num

theorem tierRate_ge (i : ℕ) : 400 ≤ tierRate i := by
  rcases i with _ | _ | _ | _ | _ | n
  · decide
  · decide
  · decide
  · decide
  · decide
  · rw [tierRate_of_ge (n + 5) (by omega)]

theorem tierRate_pos (i : ℕ) : 0 < tierRate i :=
  lt_of_lt_of_le (by norm_num) (tierRate_ge i)

theorem totalInvestment_nonneg (a : Assumptions) : 0 ≤ totalInvestment a :=
  Finset.sum_nonneg fun i _ =>
    mul_nonneg (by positivity) (le_of_lt (tierRate_pos i))

theorem averageAnnualCost_nonneg (a : Assumptions) : 0 ≤ averageAnnualCost a := by
  rw [averageAnnualCost]
  split
  · exact div_nonneg (totalInvestment_nonneg a) (by positivity)
  · exact le_refl 0

theorem annualBenefit_nonneg (a : Assumptions) : 0 ≤ annualBenefit a := by
  unfold annualBenefit annualProductivityGains annualTurnoverSavings annualTrainingSavings
    hourlyRate productivityBoost turnoverReduction trainingHoursSavedPerEmployee
    workingHoursPerYear
  positivity

theorem cashFlowData_length (a : Assumptions) : (cashFlowData a).length = a.term + 1 := by
  simp [cashFlowData]

theorem cashFlowData_get (a : Assumptions) (i : ℕ) (h : i < (cashFlowData a).length) :
    (cashFlowData a).get ⟨i, h⟩ =
      { year := "Year " ++ toString i
        cumulativeBenefit := annualBenefit a * (i : ℚ)
        cumulativeCost := cumulativeCostAt a i
        netCashFlow := annualBenefit a * (i : ℚ) - cumulativeCostAt a i } := by
  have hi : i < a.term + 1 := by
    have := cashFlowData_length a
    omega
  simp [cashFlowData]

/-! ### The claims -/

/-- Claim C1: on `employees=10, salary=20000, turnover=0, replaceCost=5000, term=1`
the engine returns `totalInvestment = 5000`, `annualProductivityGains = 10000`,
`annualTurnoverSavings = 0`, `annualTrainingSavings = 10*10*(20000/2080)` (≈ 961.5),
`totalBenefit ≈ 10961.5`, `netBenefit ≈ 5961.5`, `totalRoiPercent ≈ 119.2`,
with the approximate figures accurate to within 1/10. -/
theorem claim_C1_scenario1 :
    (calculations scenario1).totalInvestment = 5000 ∧
    annualProductivityGains scenario1 = 10000 ∧
    annualTurnoverSavings scenario1 = 0 ∧
    annualTrainingSavings scenario1 = 10 * 10 * (20000 / 2080) ∧
    |annualTrainingSavings scenario1 - 9615 / 10| ≤ 1 / 10 ∧
    (calculations scenario1).totalBenefit = 142500 / 13 ∧
    |(calculations scenario1).totalBenefit - 109615 / 10| ≤ 1 / 10 ∧
    (calculations scenario1).netBenefit = 77500 / 13 ∧
    |(calculations scenario1).netBenefit - 59615 / 10| ≤ 1 / 10 ∧
    (calculations scenario1).totalRoi = 1550 / 13 ∧
    |(calculations scenario1).totalRoi - 1192 / 10| ≤ 1 / 10 := by
  norm_num [calculations, totalBenefit, netBenefit, totalRoi, productivityGains,
    turnoverReductionSavings, trainingTimeSavings, annualProductivityGains,
    annualTurnoverSavings, annualTrainingSavings, hourlyRate, totalInvestment, scenario1,
    Finset.sum_range_succ, tierRate, costPerYearPerEmployee, productivityBoost,
    turnoverReduction, trainingHoursSavedPerEmployee, workingHoursPerYear, abs_le]

/-- Claim C2: whenever `annualBenefit` exceeds the average yearly cost
(`totalInvestment / term`), `monthsToBreakEven` is
`totalInvestment / (annualBenefit - averageAnnualCost) * 12`; otherwise it is the
sentinel `0`, which `formatMonths` renders as `"N/A"`; in all cases the returned
value is a rational number that is never negative. -/
theorem claim_C2_break_even (a : Assumptions) :
    0 ≤ (calculations a).monthsToBreakEven ∧
    (averageAnnualCost a < annualBenefit a →
      (calculations a).monthsToBreakEven
        = totalInvestment a / (annualBenefit a - averageAnnualCost a) * 12) ∧
    (annualBenefit a ≤ averageAnnualCost a →
      (calculations a).monthsToBreakEven = 0 ∧
      formatMonths (calculations a).monthsToBreakEven = "N/A") := by
  have hcalc : (calculations a).monthsToBreakEven = monthsToBreakEven a := rfl
  refine ⟨?_, ?_, ?_⟩
  · rw [hcalc, monthsToBreakEven]
    split
    · next h =>
      have hd : 0 ≤ annualBenefit a - averageAnnualCost a := by linarith [h.2]
      exact mul_nonneg (div_nonneg (totalInvestment_nonneg a) hd) (by norm_num)
    · exact le_refl 0
  · intro h
    rw [hcalc, monthsToBreakEven,
      if_pos ⟨lt_of_le_of_lt (averageAnnualCost_nonneg a) h, h⟩]
  · intro h
    have h0 : monthsToBreakEven a = 0 := by
      rw [monthsToBreakEven, if_neg]
      intro hc
      exact absurd hc.2 (not_lt.2 h)
    rw [hcalc, h0]
    exact ⟨rfl, by norm_num [formatMonths]⟩

/-- Claim C5: `turnover = 0` makes the turnover-savings component exactly `0`
(still present in the output); `totalInvestment = 0` (for instance `employees = 0`)
forces `totalRoiPercent` to exactly `0` through the explicit guard, with no
division-by-zero error — every branch of the engine resolves to a rational value. -/
theorem claim_C5_zero_guards :
    (∀ a : Assumptions, a.turnover = 0 →
        annualTurnoverSavings a = 0 ∧ (calculations a).turnoverReductionSavings = 0) ∧
    (∀ a : Assumptions, totalInvestment a = 0 → (calculations a).totalRoi = 0) ∧
    (∀ a : Assumptions, a.employees = 0 →
        (calculations a).totalInvestment = 0 ∧ (calculations a).totalRoi = 0) := by
  refine ⟨?_, ?_, ?_⟩
  · intro a h
    have h1 : annualTurnoverSavings a = 0 := by
      simp [annualTurnoverSavings, h]
    exact ⟨h1, by simp [calculations, turnoverReductionSavings, h1]⟩
  · intro a h
    simp [calculations, totalRoi, h]
  · intro a h
    have h1 : totalInvestment a = 0 := by
      simp [totalInvestment, h]
    exact ⟨h1, by simp [calculations, totalRoi, h1]⟩

/-- Claim C6: the engine never reads `trainingHours`: two inputs that agree on the
other five fields produce identical `DerivedMetrics` records. -/
theorem claim_C6_trainingHours_noninterference (a b : Assumptions)
    (h1 : a.employees = b.employees) (h2 : a.salary = b.salary)
    (h3 : a.turnover = b.turnover) (h4 : a.replaceCost = b.replaceCost)
    (h5 : a.term = b.term) :
    calculations a = calculations b := by
  obtain ⟨e, s, th, tu, rc, tm⟩ := a
  obtain ⟨e2, s2, th2, tu2, rc2, tm2⟩ := b
  simp only at h1 h2 h3 h4 h5
  subst h1; subst h2; subst h3; subst h4; subst h5
  rfl

/-- Witness for C6 at two concrete inputs differing only in `trainingHours`. -/
theorem claim_C6_witness :
    calculations { employees := 10, salary := 20000, trainingHours := 0,
                   turnover := 0, replaceCost := 5000, term := 1 }
      = calculations { employees := 10, salary := 20000, trainingHours := 100,
                       turnover := 0, replaceCost := 5000, term := 1 } :=
  claim_C6_trainingHours_noninterference _ _ rfl rfl rfl rfl rfl

theorem cumulativeCostAt_nonneg (a : Assumptions) (y : ℕ) : 0 ≤ cumulativeCostAt a y :=
  Finset.sum_nonneg fun i _ =>
    mul_nonneg (by positivity) (le_of_lt (tierRate_pos i))

theorem cumulativeCostAt_succ (a : Assumptions) (y : ℕ) :
    cumulativeCostAt a (y + 1) = cumulativeCostAt a y + (a.employees : ℚ) * tierRate y := by
  rw [cumulativeCostAt, cumulativeCostAt, Finset.sum_range_succ]

theorem annualBenefit_pos (a : Assumptions) (he : 10 ≤ a.employees)
    (hs : 20000 ≤ a.salary) : 0 < annualBenefit a := by
  have hE : (10 : ℚ) ≤ (a.employees : ℚ) := by exact_mod_cast he
  have hS : (20000 : ℚ) ≤ (a.salary : ℚ) := by exact_mod_cast hs
  have h1 : (0 : ℚ) < annualProductivityGains a := by
    rw [annualProductivityGains, productivityBoost]
    nlinarith
  have h2 : (0 : ℚ) ≤ annualTurnoverSavings a := by
    rw [annualTurnoverSavings, turnoverReduction]
    positivity
  have h3 : (0 : ℚ) ≤ annualTrainingSavings a := by
    rw [annualTrainingSavings, trainingHoursSavedPerEmployee, hourlyRate, workingHoursPerYear]
    positivity
  rw [annualBenefit]
  linarith

/-- Claim C3: for inputs in the documented domain, `totalBenefit`,
`totalInvestment`, each benefit component, and every cash-flow entry are
non-negative; the cash-flow series has exactly `term + 1` entries; its entry 0
is the zero baseline; and `cumulativeBenefit` and `cumulativeCost` increase
strictly from each entry to the next. -/
theorem claim_C3_invariants (a : Assumptions) (he : 10 ≤ a.employees)
    (hs : 20000 ≤ a.salary) (_ht : a.turnover ≤ 100) (hr : 5000 ≤ a.replaceCost)
    (htm : 1 ≤ a.term) :
    0 ≤ (calculations a).totalBenefit ∧
    0 ≤ (calculations a).totalInvestment ∧
    0 ≤ (calculations a).productivityGains ∧
    0 ≤ (calculations a).turnoverReductionSavings ∧
    0 ≤ (calculations a).trainingTimeSavings ∧
    (∀ e ∈ (calculations a).cashFlowData, 0 ≤ e.cumulativeBenefit ∧ 0 ≤ e.cumulativeCost) ∧
    (calculations a).cashFlowData.length = a.term + 1 ∧
    (∀ h0 : 0 < (calculations a).cashFlowData.length,
        ((calculations a).cashFlowData.get ⟨0, h0⟩).cumulativeBenefit = 0 ∧
        ((calculations a).cashFlowData.get ⟨0, h0⟩).cumulativeCost = 0) ∧
    (∀ (i : ℕ) (h : i + 1 < (calculations a).cashFlowData.length),
        ((calculations a).cashFlowData.get ⟨i, Nat.lt_of_succ_lt h⟩).cumulativeBenefit
          < ((calculations a).cashFlowData.get ⟨i + 1, h⟩).cumulativeBenefit ∧
        ((calculations a).cashFlowData.get ⟨i, Nat.lt_of_succ_lt h⟩).cumulativeCost
          < ((calculations a).cashFlowData.get ⟨i + 1, h⟩).cumulativeCost) := by
  have hAB : 0 < annualBenefit a := annualBenefit_pos a he hs
  have hEpos : (0 : ℚ) < (a.employees : ℚ) := by
    have : (10 : ℚ) ≤ (a.employees : ℚ) := by exact_mod_cast he
    linarith
  have hcfd : (calculations a).cashFlowData = cashFlowData a := rfl
  refine ⟨?_, ?_, ?_, ?_, ?_, ?_, ?_, ?_, ?_⟩
  · have h1 : 0 ≤ annualBenefit a := le_of_lt hAB
    have h2 : (calculations a).totalBenefit
        = annualBenefit a * (a.term : ℚ) := by
      show totalBenefit a = annualBenefit a * (a.term : ℚ)
      rw [totalBenefit, productivityGains, turnoverReductionSavings, trainingTimeSavings,
        annualBenefit]
      ring
    rw [h2]
    positivity
  · exact totalInvestment_nonneg a
  · show 0 ≤ productivityGains a
    rw [productivityGains, annualProductivityGains, productivityBoost]
    positivity
  · show 0 ≤ turnoverReductionSavings a
    rw [turnoverReductionSavings, annualTurnoverSavings, turnoverReduction]
    positivity
  · show 0 ≤ trainingTimeSavings a
    rw [trainingTimeSavings, annualTrainingSavings, trainingHoursSavedPerEmployee,
      hourlyRate, workingHoursPerYear]
    positivity
  · intro e hmem
    rw [hcfd, cashFlowData, List.mem_map] at hmem
    obtain ⟨y, _, rfl⟩ := hmem
    exact ⟨by positivity, cumulativeCostAt_nonneg a y⟩
  · rw [hcfd, cashFlowData_length]
  · intro h0
    show ((cashFlowData a).get ⟨0, h0⟩).cumulativeBenefit = 0 ∧
        ((cashFlowData a).get ⟨0, h0⟩).cumulativeCost = 0
    rw [cashFlowData_get]
    norm_num [cumulativeCostAt]
  · intro i h
    show ((cashFlowData a).get ⟨i, Nat.lt_of_succ_lt h⟩).cumulativeBenefit
          < ((cashFlowData a).get ⟨i + 1, h⟩).cumulativeBenefit ∧
        ((cashFlowData a).get ⟨i, Nat.lt_of_succ_lt h⟩).cumulativeCost
          < ((cashFlowData a).get ⟨i + 1, h⟩).cumulativeCost
    rw [cashFlowData_get, cashFlowData_get]
    constructor
    · show annualBenefit a * (i : ℚ) < annualBenefit a * ((i : ℕ) + 1 : ℕ)
      push_cast
      nlinarith
    · show cumulativeCostAt a i < cumulativeCostAt a (i + 1)
      rw [cumulativeCostAt_succ]
      have : 0 < (a.employees : ℚ) * tierRate i := mul_pos hEpos (tierRate_pos i)
      linarith

/-- Witness for C3 at the all-minimum slider input. -/
theorem claim_C3_witness :
    10 ≤ scenario1.employees ∧ 20000 ≤ scenario1.salary ∧ scenario1.turnover ≤ 100 ∧
    5000 ≤ scenario1.replaceCost ∧ 1 ≤ scenario1.term ∧
    0 ≤ (calculations scenario1).totalBenefit :=
  ⟨by decide, by decide, by decide, by decide, by decide,
    (claim_C3_invariants scenario1 (by decide) (by decide) (by decide) (by decide)
      (by decide)).1⟩

/-- Claim C4: every year index at or beyond the five-entry tier table falls back
to the last tier of 400 per employee; with `term = 6` the investment total adds
`employees * 400` for year 6 on top of the five tabulated tiers, and the year-6
cash-flow entry adds `employees * 400` over the year-5 entry. -/
theorem claim_C4_tier_fallback :
    (∀ i : ℕ, 5 ≤ i → tierRate i = 400) ∧
    (∀ a : Assumptions, a.term = 6 →
        totalInvestment a
          = (a.employees : ℚ) * (500 + 475 + 450 + 425 + 400) + (a.employees : ℚ) * 400) ∧
    (∀ a : Assumptions, ∀ h : 6 < (cashFlowData a).length,
        ((cashFlowData a).get ⟨6, h⟩).cumulativeCost
          = ((cashFlowData a).get ⟨5, Nat.lt_of_succ_lt h⟩).cumulativeCost
            + (a.employees : ℚ) * 400) := by
  refine ⟨tierRate_of_ge, ?_, ?_⟩
  · intro a h
    have h0 : tierRate 0 = 500 := by decide
    have h1 : tierRate 1 = 475 := by decide
    have h2 : tierRate 2 = 450 := by decide
    have h3 : tierRate 3 = 425 := by decide
    have h4 : tierRate 4 = 400 := by decide
    have h5 : tierRate 5 = 400 := tierRate_of_ge 5 (le_refl 5)
    rw [totalInvestment, h]
    rw [Finset.sum_range_succ, Finset.sum_range_succ, Finset.sum_range_succ,
      Finset.sum_range_succ, Finset.sum_range_succ, Finset.sum_range_succ,
      Finset.sum_range_zero, h0, h1, h2, h3, h4, h5]
    ring
  · intro a h
    rw [cashFlowData_get, cashFlowData_get]
    show cumulativeCostAt a 6 = cumulativeCostAt a 5 + (a.employees : ℚ) * 400
    rw [cumulativeCostAt_succ, tierRate_of_ge 5 (le_refl 5)]

/-! ### Linearity in the headcount -/

/-- The annual benefit per employee: every benefit term is `employees` times a
factor built from the other fields. -/
def benefitRate (a : Assumptions) : ℚ :=
  (a.salary : ℚ) * productivityBoost
    + ((a.turnover : ℚ) / 100) * turnoverReduction * (a.replaceCost : ℚ)
    + trainingHoursSavedPerEmployee * ((a.salary : ℚ) / workingHoursPerYear)

theorem annualBenefit_eq (a : Assumptions) :
    annualBenefit a = (a.employees : ℚ) * benefitRate a := by
  rw [annualBenefit, annualProductivityGains, annualTurnoverSavings, annualTrainingSavings,
    hourlyRate, benefitRate]
  ring

theorem benefitRate_nonneg (a : Assumptions) : 0 ≤ benefitRate a := by
  rw [benefitRate, productivityBoost, turnoverReduction, trainingHoursSavedPerEmployee,
    workingHoursPerYear]
  positivity

theorem sumTier_nonneg (n : ℕ) : 0 ≤ sumTier n :=
  Finset.sum_nonneg fun i _ => le_of_lt (tierRate_pos i)

theorem totalBenefit_eq (a : Assumptions) :
    totalBenefit a = annualBenefit a * (a.term : ℚ) := by
  rw [totalBenefit, productivityGains, turnoverReductionSavings, trainingTimeSavings,
    annualBenefit]
  ring

theorem totalInvestment_set (a : Assumptions) (e : ℕ) :
    totalInvestment { a with employees := e } = (e : ℚ) * sumTier a.term := by
  simp [totalInvestment, sumTier, Finset.mul_sum]

theorem averageAnnualCost_set (a : Assumptions) (e : ℕ) :
    averageAnnualCost { a with employees := e }
      = (e : ℚ) * (if 0 < a.term then sumTier a.term / (a.term : ℚ) else 0) := by
  unfold averageAnnualCost
  by_cases hT : 0 < a.term <;>
    simp [hT, totalInvestment_set, mul_div_assoc]

/-- Claim C7: with all other fields fixed, a larger `employees` never decreases
`totalBenefit` or `totalInvestment`. -/
theorem claim_C7_employees_monotone (a : Assumptions) (e₁ e₂ : ℕ) (h : e₁ ≤ e₂) :
    (calculations { a with employees := e₁ }).totalBenefit
      ≤ (calculations { a with employees := e₂ }).totalBenefit ∧
    (calculations { a with employees := e₁ }).totalInvestment
      ≤ (calculations { a with employees := e₂ }).totalInvestment := by
  have hc : (e₁ : ℚ) ≤ (e₂ : ℚ) := by exact_mod_cast h
  have keyB : ∀ e : ℕ, totalBenefit { a with employees := e }
      = (e : ℚ) * (benefitRate a * (a.term : ℚ)) := by
    intro e
    rw [totalBenefit_eq, annualBenefit_eq]
    show (e : ℚ) * benefitRate a * (a.term : ℚ) = (e : ℚ) * (benefitRate a * (a.term : ℚ))
    ring
  constructor
  · show totalBenefit { a with employees := e₁ } ≤ totalBenefit { a with employees := e₂ }
    rw [keyB e₁, keyB e₂]
    exact mul_le_mul_of_nonneg_right hc
      (mul_nonneg (benefitRate_nonneg a) (by positivity))
  · show totalInvestment { a with employees := e₁ } ≤ totalInvestment { a with employees := e₂ }
    rw [totalInvestment_set, totalInvestment_set]
    exact mul_le_mul_of_nonneg_right hc (sumTier_nonneg a.term)

/-- Witness for C7 at 10 versus 20 employees. -/
theorem claim_C7_witness :
    (10 : ℕ) ≤ 20 ∧
    (calculations { scenario1 with employees := 10 }).totalBenefit
      ≤ (calculations { scenario1 with employees := 20 }).totalBenefit :=
  ⟨by decide, (claim_C7_employees_monotone scenario1 10 20 (by decide)).1⟩

/-! ### Bounds on the investment schedule -/

theorem totalInvestment_le (a : Assumptions) :
    totalInvestment a ≤ (a.employees : ℚ) * 500 * (a.term : ℚ) := by
  have h : totalInvestment a ≤ (Finset.range a.term).sum fun _ => (a.employees : ℚ) * 500 :=
    Finset.sum_le_sum fun i _ => mul_le_mul_of_nonneg_left (tierRate_le i) (by positivity)
  calc totalInvestment a ≤ (Finset.range a.term).sum fun _ => (a.employees : ℚ) * 500 := h
    _ = (a.employees : ℚ) * 500 * (a.term : ℚ) := by
        rw [Finset.sum_const, Finset.card_range, nsmul_eq_mul]
        ring

theorem totalInvestment_ge (a : Assumptions) :
    (a.employees : ℚ) * 400 * (a.term : ℚ) ≤ totalInvestment a := by
  have h : ((Finset.range a.term).sum fun _ => (a.employees : ℚ) * 400) ≤ totalInvestment a :=
    Finset.sum_le_sum fun i _ => mul_le_mul_of_nonneg_left (tierRate_ge i) (by positivity)
  calc (a.employees : ℚ) * 400 * (a.term : ℚ)
      = (Finset.range a.term).sum fun _ => (a.employees : ℚ) * 400 := by
        rw [Finset.sum_const, Finset.card_range, nsmul_eq_mul]
        ring
    _ ≤ totalInvestment a := h

/-- Claim C9: on the documented domain the benefit run-rate is at least twice
the average annual cost, so `totalBenefit ≥ 2 * totalInvestment`,
`netBenefit > 0`, `totalRoiPercent ≥ 100`, and the no-break-even sentinel
branch is unreachable: `monthsToBreakEven` always takes the finite formula. -/
theorem claim_C9_no_loss (a : Assumptions) (he : 10 ≤ a.employees)
    (hs : 20000 ≤ a.salary) (htm : 1 ≤ a.term) :
    2 * averageAnnualCost a ≤ annualBenefit a ∧
    2 * (calculations a).totalInvestment ≤ (calculations a).totalBenefit ∧
    0 < (calculations a).netBenefit ∧
    100 ≤ (calculations a).totalRoi ∧
    averageAnnualCost a < annualBenefit a ∧
    (calculations a).monthsToBreakEven
      = totalInvestment a / (annualBenefit a - averageAnnualCost a) * 12 := by
  have hE : (10 : ℚ) ≤ (a.employees : ℚ) := by exact_mod_cast he
  have hS : (20000 : ℚ) ≤ (a.salary : ℚ) := by exact_mod_cast hs
  have hEpos : (0 : ℚ) < (a.employees : ℚ) := by linarith
  have hTpos : (0 : ℚ) < (a.term : ℚ) := by
    have : (1 : ℚ) ≤ (a.term : ℚ) := by exact_mod_cast htm
    linarith
  have hTnat : 0 < a.term := htm
  have havg_def : averageAnnualCost a = totalInvestment a / (a.term : ℚ) := by
    rw [averageAnnualCost, if_pos hTnat]
  have hTI_pos : 0 < totalInvestment a := by
    have h400 : (0 : ℚ) < (a.employees : ℚ) * 400 * (a.term : ℚ) := by positivity
    linarith [totalInvestment_ge a]
  have havg_le : averageAnnualCost a ≤ (a.employees : ℚ) * 500 := by
    rw [havg_def, div_le_iff₀ hTpos]
    exact totalInvestment_le a
  have havg_pos : 0 < averageAnnualCost a := by
    rw [havg_def]
    exact div_pos hTI_pos hTpos
  have hAPG : (a.employees : ℚ) * 1000 ≤ annualProductivityGains a := by
    rw [annualProductivityGains, productivityBoost]
    nlinarith
  have hAPG_le : annualProductivityGains a ≤ annualBenefit a := by
    have h2 : (0 : ℚ) ≤ annualTurnoverSavings a := by
      rw [annualTurnoverSavings, turnoverReduction]
      positivity
    have h3 : (0 : ℚ) ≤ annualTrainingSavings a := by
      rw [annualTrainingSavings, trainingHoursSavedPerEmployee, hourlyRate,
        workingHoursPerYear]
      positivity
    rw [annualBenefit]
    linarith
  have hAB2 : 2 * averageAnnualCost a ≤ annualBenefit a := by linarith
  have havg_lt : averageAnnualCost a < annualBenefit a := by linarith
  have hTIeq : averageAnnualCost a * (a.term : ℚ) = totalInvestment a := by
    rw [havg_def, div_mul_cancel₀]
    exact ne_of_gt hTpos
  have hTB2 : 2 * totalInvestment a ≤ totalBenefit a := by
    rw [totalBenefit_eq, ← hTIeq]
    nlinarith
  have hNB : 0 < netBenefit a := by
    rw [netBenefit]
    linarith
  have hroi : 100 ≤ totalRoi a := by
    rw [totalRoi, if_pos hTI_pos]
    have h1 : (1 : ℚ) ≤ netBenefit a / totalInvestment a := by
      rw [le_div_iff₀ hTI_pos]
      rw [netBenefit]
      linarith
    nlinarith
  have hmtbe : monthsToBreakEven a
      = totalInvestment a / (annualBenefit a - averageAnnualCost a) * 12 := by
    rw [monthsToBreakEven, if_pos ⟨lt_trans havg_pos havg_lt, havg_lt⟩]
  exact ⟨hAB2, hTB2, hNB, hroi, havg_lt, hmtbe⟩

/-- Witness for C9 at the all-minimum slider input. -/
theorem claim_C9_witness :
    10 ≤ scenario1.employees ∧ 20000 ≤ scenario1.salary ∧ 1 ≤ scenario1.term ∧
    0 < (calculations scenario1).netBenefit :=
  ⟨by decide, by decide, by decide,
    (claim_C9_no_loss scenario1 (by decide) (by decide) (by decide)).2.2.1⟩

/-- The break-even figure in the canonical per-employee form: the headcount
factor cancels between numerator and denominator. -/
theorem monthsToBreakEven_set (a : Assumptions) (e : ℕ) (he : 0 < e) :
    monthsToBreakEven { a with employees := e }
      = if 0 < benefitRate a ∧
            (if 0 < a.term then sumTier a.term / (a.term : ℚ) else 0) < benefitRate a
        then sumTier a.term
            / (benefitRate a - (if 0 < a.term then sumTier a.term / (a.term : ℚ) else 0)) * 12
        else 0 := by
  set c := (if 0 < a.term then sumTier a.term / (a.term : ℚ) else 0) with hc
  have hE : (0 : ℚ) < (e : ℚ) := by exact_mod_cast he
  have hAB : annualBenefit { a with employees := e } = (e : ℚ) * benefitRate a := by
    rw [annualBenefit_eq]
    rfl
  have hTI : totalInvestment { a with employees := e } = (e : ℚ) * sumTier a.term :=
    totalInvestment_set a e
  have havg : averageAnnualCost { a with employees := e } = (e : ℚ) * c :=
    averageAnnualCost_set a e
  rw [monthsToBreakEven, hAB, hTI, havg]
  by_cases hcond : 0 < benefitRate a ∧ c < benefitRate a
  · rw [if_pos ⟨mul_pos hE hcond.1, (mul_lt_mul_left hE).2 hcond.2⟩, if_pos hcond,
      ← mul_sub, mul_div_mul_left _ _ (ne_of_gt hE)]
  · rw [if_neg, if_neg hcond]
    intro hcon
    apply hcond
    have hbr : 0 < benefitRate a := by
      by_contra hb
      push_neg at hb
      nlinarith [hcon.1]
    exact ⟨hbr, (mul_lt_mul_left hE).1 hcon.2⟩

/-- Claim C10: for positive headcounts, `monthsToBreakEven` does not depend on
`employees` — the factor scales numerator and denominator alike and cancels. -/
theorem claim_C10_break_even_headcount_independent (a : Assumptions) (e₁ e₂ : ℕ)
    (h₁ : 0 < e₁) (h₂ : 0 < e₂) :
    monthsToBreakEven { a with employees := e₁ }
      = monthsToBreakEven { a with employees := e₂ } := by
  rw [monthsToBreakEven_set a e₁ h₁, monthsToBreakEven_set a e₂ h₂]

/-- Witness for C10 at 10 versus 20 employees. -/
theorem claim_C10_witness :
    0 < 10 ∧ 0 < 20 ∧
    monthsToBreakEven { scenario1 with employees := 10 }
      = monthsToBreakEven { scenario1 with employees := 20 } :=
  ⟨by decide, by decide,
    claim_C10_break_even_headcount_independent scenario1 10 20 (by decide) (by decide)⟩

/-- Counterexample to Claim C8 as stated: the compact formatter tests
`Math.abs(value)`, so `v = -2000000`, which is below 1,000, is rendered as
`"-2.0M"` and not through the full currency format `"-$2,000,000"`. -/
theorem claim_C8_counterexample :
    formatCurrencyK (-2000000) = "-2.0M" ∧
    formatCurrency (-2000000) = "-$2,000,000" ∧
    formatCurrencyK (-2000000) ≠ formatCurrency (-2000000) := by
  have h1 : formatCurrencyK (-2000000) = "-2.0M" := by
    rw [formatCurrencyK, if_pos (by norm_num : (1000000 : ℚ) ≤ |(-2000000 : ℚ)|)]
    have hr : round ((-2000000 : ℚ) / 1000000 * 10) = -20 := by
      rw [round_eq]; norm_num
    rw [toFixed1, hr]
    decide
  have h2 : formatCurrency (-2000000) = "-$2,000,000" := by
    have hr : roundHalfExpand (-2000000 : ℚ) = -2000000 := by
      norm_num [roundHalfExpand, round_eq]
    rw [formatCurrency, if_pos (by norm_num : (-2000000 : ℚ) < 0), hr]
    decide
  refine ⟨h1, h2, ?_⟩
  rw [h1, h2]
  decide

/-- Claim C8 (amended): the compact-formatter thresholds select on the absolute
value. When `|v| ≥ 1,000,000` the rendering is the one-decimal millions figure
suffixed `"M"`; when `1,000 ≤ |v| < 1,000,000` it is an integer within 1/2 of
`v / 1000` suffixed `"K"`; only when `|v| < 1,000` does it fall back to the full
locale-grouped integer-rounded currency format. -/
theorem claim_C8_compact_format (v : ℚ) :
    (1000000 ≤ |v| → formatCurrencyK v = toFixed1 (v / 1000000) ++ "M") ∧
    (|v| < 1000000 → 1000 ≤ |v| →
      ∃ n : ℤ, |v / 1000 - (n : ℚ)| ≤ 1 / 2 ∧ formatCurrencyK v = toString n ++ "K") ∧
    (|v| < 1000 → formatCurrencyK v = formatCurrency v) := by
  refine ⟨?_, ?_, ?_⟩
  · intro h
    rw [formatCurrencyK, if_pos h]
  · intro h1 h2
    refine ⟨round (v / 1000), abs_sub_round _, ?_⟩
    rw [formatCurrencyK, if_neg (not_le.2 h1), if_pos h2]
  · intro h
    rw [formatCurrencyK,
      if_neg (not_le.2 (lt_trans h (by norm_num : (1000 : ℚ) < 1000000))),
      if_neg (not_le.2 h)]

/-- An input (outside the UI-clamped domain, but a legal engine input) whose
benefit run-rate does not exceed the average annual cost: zero salary, zero
turnover. -/
def cheapInput : Assumptions :=
  { employees := 10, salary := 0, trainingHours := 0
    turnover := 0, replaceCost := 0, term := 1 }

/-- Witness for C2: at `cheapInput` the sentinel branch fires, the returned
value is `0` and it renders as `"N/A"`. -/
theorem claim_C2_witness :
    annualBenefit cheapInput ≤ averageAnnualCost cheapInput ∧
    (calculations cheapInput).monthsToBreakEven = 0 ∧
    formatMonths (calculations cheapInput).monthsToBreakEven = "N/A" := by
  have h : annualBenefit cheapInput ≤ averageAnnualCost cheapInput := by
    norm_num [annualBenefit, annualProductivityGains, annualTurnoverSavings,
      annualTrainingSavings, hourlyRate, averageAnnualCost, totalInvestment, cheapInput,
      Finset.sum_range_succ, tierRate, costPerYearPerEmployee, productivityBoost,
      turnoverReduction, trainingHoursSavedPerEmployee, workingHoursPerYear]
  exact ⟨h, ((claim_C2_break_even cheapInput).2.2 h).1,
    ((claim_C2_break_even cheapInput).2.2 h).2⟩

/-- The spec's concrete scenario 2 input: a six-year term. -/
def term6Input : Assumptions :=
  { employees := 10, salary := 20000, trainingHours := 0
    turnover := 0, replaceCost := 5000, term := 6 }

/-- Witness for C4: with `term = 6` the year-6 investment reuses the 400 tier. -/
theorem claim_C4_witness :
    term6Input.term = 6 ∧
    totalInvestment term6Input
      = (term6Input.employees : ℚ) * (500 + 475 + 450 + 425 + 400)
        + (term6Input.employees : ℚ) * 400 :=
  ⟨rfl, claim_C4_tier_fallback.2.1 term6Input rfl⟩

/-- The spec's concrete scenario 3 input: zero employees, hence zero investment. -/
def zeroEmployeesInput : Assumptions :=
  { employees := 0, salary := 20000, trainingHours := 0
    turnover := 0, replaceCost := 5000, term := 1 }

/-- Witness for C5: turnover 0 zeroes the turnover component, and zero
employees force ROI to exactly 0. -/
theorem claim_C5_witness :
    scenario1.turnover = 0 ∧ annualTurnoverSavings scenario1 = 0 ∧
    zeroEmployeesInput.employees = 0 ∧ (calculations zeroEmployeesInput).totalRoi = 0 :=
  ⟨rfl, (claim_C5_zero_guards.1 scenario1 rfl).1, rfl,
    (claim_C5_zero_guards.2.2 zeroEmployeesInput rfl).2⟩

/-- Witness for C8 (amended) in the millions branch at `v = 2500000`. -/
theorem claim_C8_witness :
    (1000000 : ℚ) ≤ |(2500000 : ℚ)| ∧
    formatCurrencyK 2500000 = toFixed1 (2500000 / 1000000) ++ "M" :=
  ⟨by norm_num, (claim_C8_compact_format 2500000).1 (by norm_num)⟩

end PowerShops
